import Mathlib

/-!
Verification development for the ContextLink frontend (React chat UI).

The embedding models the client-side logic of the repository:
the data shapes from `frontend/src/types/index.ts`, the state-owning
controller `App` (`frontend/src/App.tsx`), and the pure display helpers and
submit logic of `ChatInterface.tsx`, `ConversationList.tsx` and
`ModelSelector.tsx`.

Modelling conventions:
- JS numbers that originate from decimal strings (costs, carbon footprints)
  are modelled exactly as scaled decimals `Dec` (integer mantissa over a
  power-of-ten denominator).  The decimal values exercised by the spec are
  exactly representable, so the model agrees with IEEE-754 evaluation there.
- `Number.prototype.toFixed` is modelled per the ECMA algorithm: sign split,
  then round half-up on the magnitude, then fixed-width digit rendering.
- Timestamps are integer epoch milliseconds; the real-division comparison
  `diffInHours < 24` of the source is expressed by the equivalent integer
  comparison on milliseconds.
- Locale-dependent rendering (`toLocaleTimeString`, `toLocaleDateString`)
  is abstracted to the bucket that the source selects.
- Network effects: each `App` handler is a function of the current state and
  of the (already settled) response, returning the new state, the diagnostic
  log entries written, and the requests issued.
-/

namespace ContextLink

/-- Decimal digit to character, as used by number-to-string rendering. -/
def digitChar : Nat → Char
  | 0 => '0'
  | 1 => '1'
  | 2 => '2'
  | 3 => '3'
  | 4 => '4'
  | 5 => '5'
  | 6 => '6'
  | 7 => '7'
  | 8 => '8'
  | 9 => '9'
  | _ => '*'

/-- Fuel-driven most-significant-first digit accumulator for `natRepr`. -/
def natReprAux : Nat → Nat → List Char → List Char
  | 0, _, acc => acc
  | fuel + 1, n, acc =>
    if n < 10 then digitChar n :: acc
    else natReprAux fuel (n / 10) (digitChar (n % 10) :: acc)

/-- Decimal rendering of a natural number (JS integer-to-string). -/
def natRepr (n : Nat) : String :=
  String.mk (natReprAux (n + 1) n [])

/-- Left-pad a character list with zeros up to length `d`
(the fixed-width fraction part of `toFixed`). -/
def padZerosL (d : Nat) (l : List Char) : List Char :=
  List.replicate (d - l.length) '0' ++ l

/-- Exact decimal number: value `num / 10 ^ exp`.  Models the JS number a
decimal string parses to. -/
structure Dec where
  num : Int
  exp : Nat
deriving DecidableEq, Repr

/-- Comparison `a < b` on decimals by cross-multiplication. -/
def decLt (a b : Dec) : Bool :=
  a.num * (10 : Int) ^ b.exp < b.num * (10 : Int) ^ a.exp

/-- `Number.prototype.toFixed d` on an exact decimal: sign split, round the
magnitude half-up to `d` fraction digits, render with a fixed-width fraction. -/
def toFixedD (d : Nat) (v : Dec) : String :=
  let m := v.num.natAbs
  let scaled := (2 * m * 10 ^ d + 10 ^ v.exp) / (2 * 10 ^ v.exp)
  let sign := if v.num < 0 then "-" else ""
  if d = 0 then sign ++ natRepr scaled
  else
    sign ++ natRepr (scaled / 10 ^ d) ++ "." ++
      String.mk (padZerosL d (natRepr (scaled % 10 ^ d)).data)

/-- Digit characters to the natural number they denote. -/
def digitsToNat (l : List Char) : Nat :=
  l.foldl (fun a c => 10 * a + (c.toNat - 48)) 0

/-- `parseFloat` on the plain decimal strings the backend produces
(optional sign, integer digits, optional fraction).  `none` models `NaN`;
exponent notation is not produced by the backend and is not modelled. -/
def parseDecimal (s : String) : Option Dec :=
  let (sign, rest) :=
    match s.data with
    | '-' :: r => ((-1 : Int), r)
    | '+' :: r => ((1 : Int), r)
    | r => ((1 : Int), r)
  let ip := rest.takeWhile Char.isDigit
  let rest1 := rest.dropWhile Char.isDigit
  match rest1 with
  | '.' :: r2 =>
    let fp := r2.takeWhile Char.isDigit
    if ip.isEmpty && fp.isEmpty then none
    else some ⟨sign * (digitsToNat ip * 10 ^ fp.length + digitsToNat fp), fp.length⟩
  | _ => if ip.isEmpty then none else some ⟨sign * digitsToNat ip, 0⟩

/-- The characters removed by `String.prototype.trim` (whitespace and line
terminators). -/
def isJsWhitespace (c : Char) : Bool :=
  c = ' ' || c = '\t' || c = '\n' || c = '\r' ||
    c = '\x0b' || c = '\x0c' || c = ' '

/-- `String.prototype.trim`: strip leading and trailing whitespace. -/
def jsTrim (s : String) : String :=
  String.mk (((s.data.dropWhile isJsWhitespace).reverse.dropWhile isJsWhitespace).reverse)

/-- `Message` from `frontend/src/types/index.ts`. -/
structure Message where
  id : Nat
  role : String
  content : String
  model_used : String
  token_count : Nat
  cost : String
  carbon_footprint : String
  created_at : String
deriving DecidableEq, Repr

/-- `Conversation` from `frontend/src/types/index.ts`. -/
structure Conversation where
  id : Nat
  title : Option String
  current_model : String
  message_count : Nat
  total_tokens : Nat
  estimated_cost : String
  estimated_carbon : String
  created_at : String
  messages : List Message
deriving DecidableEq, Repr

/-- `Model.info` from `frontend/src/types/index.ts`. -/
structure ModelInfo where
  provider : String
  model : String
  max_tokens : Nat
  supports_functions : Bool
deriving DecidableEq, Repr

/-- `Model` from `frontend/src/types/index.ts`. -/
structure Model where
  name : String
  info : ModelInfo
deriving DecidableEq, Repr

/-- Sum of `token_count` over a message sequence. -/
def sumTokens (msgs : List Message) : Nat :=
  (msgs.map Message.token_count).sum

/-- The state owned by the `App` component (`frontend/src/App.tsx`). -/
structure AppState where
  conversations : List Conversation
  currentConversation : Option Conversation
  availableModels : List Model
  selectedModel : String
deriving DecidableEq, Repr

/-- A network request as issued by an `App` handler. -/
structure Request where
  method : String
  url : String
deriving DecidableEq, Repr

/-- Outcome of running one `App` handler to completion: the new state, the
diagnostic log entries written, and the requests issued. -/
structure OpResult where
  state : AppState
  log : List String
  requests : List Request
deriving DecidableEq, Repr

/-- `fetchAvailableModels` in `App.tsx`: GET the model catalog; on success
replace `availableModels`; on failure log and leave state unchanged. -/
def fetchAvailableModels (st : AppState) (response : Except Unit (List Model)) :
    OpResult :=
  let req : Request := ⟨"GET", "/api/v1/models/"⟩
  match response with
  | .ok models => ⟨{ st with availableModels := models }, [], [req]⟩
  | .error _ => ⟨st, ["Failed to fetch models:"], [req]⟩

/-- `fetchConversations` in `App.tsx`: GET the conversation catalog; on
success replace `conversations`; on failure log and leave state unchanged. -/
def fetchConversations (st : AppState) (response : Except Unit (List Conversation)) :
    OpResult :=
  let req : Request := ⟨"GET", "/api/v1/conversations/"⟩
  match response with
  | .ok convs => ⟨{ st with conversations := convs }, [], [req]⟩
  | .error _ => ⟨st, ["Failed to fetch conversations:"], [req]⟩

/-- `createNewConversation` in `App.tsx`: POST a creation request; on success
make the result current and prepend it to the list; on failure log and leave
state unchanged. -/
def createNewConversation (st : AppState) (response : Except Unit Conversation) :
    OpResult :=
  let req : Request := ⟨"POST", "/api/v1/conversations/"⟩
  match response with
  | .ok conversation =>
    ⟨{ st with
        currentConversation := some conversation,
        conversations := conversation :: st.conversations }, [], [req]⟩
  | .error _ => ⟨st, ["Failed to create conversation:"], [req]⟩

/-- `selectConversation` in `App.tsx`: GET one conversation's detail; on
success replace the current conversation wholesale; on failure log and leave
state unchanged. -/
def selectConversation (st : AppState) (conversationId : Nat)
    (response : Except Unit Conversation) : OpResult :=
  let req : Request := ⟨"GET", "/api/v1/conversations/" ++ natRepr conversationId⟩
  match response with
  | .ok conversation => ⟨{ st with currentConversation := some conversation }, [], [req]⟩
  | .error _ => ⟨st, ["Failed to fetch conversation:"], [req]⟩

/-- `sendMessage` in `App.tsx`: if no conversation is current, return at once
(no request); otherwise POST the message; on success append the returned
`Message` to the current conversation's `messages` (the other fields of the
conversation are kept as they were); on failure log and leave state
unchanged. -/
def sendMessage (st : AppState) (_content : String) (response : Except Unit Message) :
    OpResult :=
  match st.currentConversation with
  | none => ⟨st, [], []⟩
  | some conv =>
    let req : Request :=
      ⟨"POST", "/api/v1/conversations/" ++ natRepr conv.id ++ "/messages"⟩
    match response with
    | .ok message =>
      ⟨{ st with
          currentConversation :=
            some { conv with messages := conv.messages ++ [message] } }, [], [req]⟩
    | .error _ => ⟨st, ["Failed to send message:"], [req]⟩

/-- The three display buckets `formatDate` can select (the locale rendering
inside each bucket is environment data, abstracted here). -/
inductive DateBucket where
  | timeOfDay
  | weekday
  | monthDay
deriving DecidableEq, Repr

namespace ConversationList

/-- `formatDate` in `ConversationList.tsx`, on epoch milliseconds.  The
source compares `diffInHours = (now - date) / 3600000` (exact real division)
with `24` and `168`; the equivalent integer comparisons on milliseconds are
used here. -/
def formatDate (nowMs dateMs : Int) : DateBucket :=
  let diffMs := nowMs - dateMs
  if diffMs < 24 * 3600000 then .timeOfDay
  else if diffMs < 168 * 3600000 then .weekday
  else .monthDay

/-- `formatCost` in `ConversationList.tsx`: parse the cost string, clamp
below one cent, otherwise two fraction digits. -/
def formatCost (cost : String) : String :=
  match parseDecimal cost with
  | none => "$" ++ "NaN"
  | some num => if decLt num ⟨1, 2⟩ then "<$0.01" else "$" ++ toFixedD 2 num

/-- `formatCarbon` in `ConversationList.tsx`: parse the carbon string, clamp
below one milligram, otherwise two fraction digits and a `g` suffix. -/
def formatCarbon (carbon : String) : String :=
  match parseDecimal carbon with
  | none => "NaN" ++ "g"
  | some num => if decLt num ⟨1, 3⟩ then "<0.001g" else toFixedD 2 num ++ "g"

end ConversationList

namespace ChatInterface

/-- `formatCost` in `ChatInterface.tsx`: same clamp as the list view, but
four fraction digits above the clamp. -/
def formatCost (cost : String) : String :=
  match parseDecimal cost with
  | none => "$" ++ "NaN"
  | some num => if decLt num ⟨1, 2⟩ then "<$0.01" else "$" ++ toFixedD 4 num

/-- `formatCarbon` in `ChatInterface.tsx`: same clamp as the list view, but
three fraction digits above the clamp. -/
def formatCarbon (carbon : String) : String :=
  match parseDecimal carbon with
  | none => "NaN" ++ "g"
  | some num => if decLt num ⟨1, 3⟩ then "<0.001g" else toFixedD 3 num ++ "g"

/-- The local state of `ChatInterface`: the controlled input value and the
in-flight flag. -/
structure ChatState where
  inputValue : String
  isLoading : Bool
deriving DecidableEq, Repr

/-- `handleSubmit` in `ChatInterface.tsx`, run to completion (the `await`
settled): if the trimmed input is empty or a send is in flight, return with
nothing changed and no request; otherwise send the trimmed input through
`sendMessage`, then clear the input and drop the in-flight flag. -/
def handleSubmit (cs : ChatState) (st : AppState) (response : Except Unit Message) :
    ChatState × OpResult :=
  if jsTrim cs.inputValue = "" || cs.isLoading then (cs, ⟨st, [], []⟩)
  else (⟨"", false⟩, sendMessage st (jsTrim cs.inputValue) response)

/-- State of the submit control's interleaving model: the controlled input,
the `isLoading` flag, and a ghost count of sends currently in flight. -/
structure SubmitState where
  inputValue : String
  isLoading : Bool
  inflight : Nat
deriving DecidableEq, Repr

/-- Events on the submit control: editing the (enabled) input, a form
submit, and the settling of an in-flight send. -/
inductive SubmitEvent where
  | typeInput (s : String)
  | submit
  | settle
deriving DecidableEq, Repr

/-- Initial `ChatInterface` state: `useState('')` and `useState(false)`. -/
def submitInit : SubmitState := ⟨"", false, 0⟩

/-- One step of the submit control.  Typing is ignored while the input is
disabled (`disabled=isLoading`).  A submit with empty trimmed input or with
a send in flight returns without starting a send (the guard in
`handleSubmit`, and the button's `disabled` condition).  A settle is the
`await` returning: the input is cleared and the flag dropped. -/
def submitStep (st : SubmitState) (ev : SubmitEvent) : SubmitState :=
  match ev with
  | .typeInput s => if st.isLoading then st else { st with inputValue := s }
  | .submit =>
    if jsTrim st.inputValue = "" || st.isLoading then st
    else { st with isLoading := true, inflight := st.inflight + 1 }
  | .settle =>
    if st.inflight = 0 then st
    else ⟨"", false, st.inflight - 1⟩

/-- Run the submit control from its initial state over an event sequence. -/
def submitRun (evs : List SubmitEvent) : SubmitState :=
  evs.foldl submitStep submitInit

end ChatInterface

namespace ModelSelector

/-- `getModelIcon` in `ModelSelector.tsx`: provider to icon, with an
explicit default for unrecognized providers. -/
def getModelIcon (provider : String) : String :=
  if provider = "openai" then "🤖"
  else if provider = "anthropic" then "🧠"
  else if provider = "google" then "💎"
  else "🤖"

/-- `getModelColor` in `ModelSelector.tsx`: provider to color classes, with
an explicit neutral default for unrecognized providers. -/
def getModelColor (provider : String) : String :=
  if provider = "openai" then "text-green-600 bg-green-50"
  else if provider = "anthropic" then "text-orange-600 bg-orange-50"
  else if provider = "google" then "text-blue-600 bg-blue-50"
  else "text-gray-600 bg-gray-50"

end ModelSelector

/-- The string ends in a fraction part: some prefix, then a dot, then
exactly `d` digit characters. -/
def hasDecimals (d : Nat) (s : String) : Prop :=
  ∃ a b : List Char, s.data = a ++ '.' :: b ∧ b.length = d ∧ ∀ c ∈ b, c.isDigit = true

/-- The string ends in a fraction part of exactly `d` digit characters
followed by the unit suffix `g`. -/
def hasDecimalsG (d : Nat) (s : String) : Prop :=
  ∃ a b : List Char, s.data = a ++ '.' :: (b ++ ['g']) ∧ b.length = d ∧
    ∀ c ∈ b, c.isDigit = true

/-- A concrete backend message used to instantiate the theorems. -/
def sampleMessage : Message :=
  ⟨1, "user", "hello", "gpt-4", 5, "0.001", "0.0001", "t1"⟩

/-- A concrete conversation with no messages yet, consistent with the
derived-field invariants (`message_count = 0`, `total_tokens = 0`). -/
def sampleConversation : Conversation :=
  ⟨1, none, "gpt-4", 0, 0, "0.00", "0.00", "t0", []⟩

/-- A concrete `App` state whose current conversation is
`sampleConversation`. -/
def sampleState : AppState :=
  ⟨[sampleConversation], some sampleConversation, [], "gpt-4"⟩

theorem digitChar_isDigit (n : Nat) (h : n < 10) : (digitChar n).isDigit = true := by
  interval_cases n <;> decide

theorem natReprAux_digits (fuel : Nat) :
    ∀ (n : Nat) (acc : List Char), (∀ c ∈ acc, c.isDigit = true) →
      ∀ c ∈ natReprAux fuel n acc, c.isDigit = true := by
  induction fuel with
  | zero =>
    intro n acc hacc c hc
    exact hacc c hc
  | succ f ih =>
    intro n acc hacc c hc
    rw [natReprAux] at hc
    by_cases h : n < 10
    · rw [if_pos h] at hc
      rcases List.mem_cons.mp hc with h1 | h1
      · subst h1; exact digitChar_isDigit n h
      · exact hacc c h1
    · rw [if_neg h] at hc
      refine ih (n / 10) (digitChar (n % 10) :: acc) ?_ c hc
      intro x hx
      rcases List.mem_cons.mp hx with h1 | h1
      · subst h1; exact digitChar_isDigit _ (Nat.mod_lt n (by omega))
      · exact hacc x h1

theorem natReprAux_length_le (fuel : Nat) :
    ∀ (k n : Nat) (acc : List Char), n < 10 ^ k → 1 ≤ k →
      (natReprAux fuel n acc).length ≤ acc.length + k := by
  induction fuel with
  | zero =>
    intro k n acc _ _
    rw [natReprAux]
    omega
  | succ f ih =>
    intro k n acc hn hk
    rw [natReprAux]
    by_cases h : n < 10
    · rw [if_pos h]
      simp only [List.length_cons]
      omega
    · rw [if_neg h]
      have hk2 : 2 ≤ k := by
        by_contra hcon
        have hk1 : k = 1 := by omega
        subst hk1
        simp only [pow_one] at hn
        omega
      obtain ⟨j, rfl⟩ : ∃ j, k = j + 1 := ⟨k - 1, by omega⟩
      have hdiv : n / 10 < 10 ^ j := by
        have hlt : n < 10 ^ j * 10 := by
          calc n < 10 ^ (j + 1) := hn
            _ = 10 ^ j * 10 := pow_succ 10 j
        exact Nat.div_lt_of_lt_mul (by omega)
      have hres := ih j (n / 10) (digitChar (n % 10) :: acc) hdiv (by omega)
      simp only [List.length_cons] at hres
      omega

theorem natRepr_length_le (n k : Nat) (hn : n < 10 ^ k) (hk : 1 ≤ k) :
    (natRepr n).data.length ≤ k := by
  have h := natReprAux_length_le (n + 1) k n [] hn hk
  simpa [natRepr] using h

theorem natRepr_digits (n : Nat) : ∀ c ∈ (natRepr n).data, c.isDigit = true :=
  natReprAux_digits (n + 1) n [] (by intro c hc; cases hc)

theorem padZerosL_length (d : Nat) (l : List Char) (h : l.length ≤ d) :
    (padZerosL d l).length = d := by
  simp only [padZerosL, List.length_append, List.length_replicate]
  omega

theorem padZerosL_digits (d : Nat) (l : List Char)
    (h : ∀ c ∈ l, c.isDigit = true) : ∀ c ∈ padZerosL d l, c.isDigit = true := by
  intro c hc
  rcases List.mem_append.mp hc with h1 | h1
  · have := List.eq_of_mem_replicate h1
    subst this
    decide
  · exact h c h1

theorem toFixedD_hasDecimals (d : Nat) (hd : 1 ≤ d) (v : Dec) :
    hasDecimals d (toFixedD d v) := by
  have hd0 : d ≠ 0 := by omega
  rw [toFixedD]
  simp only [hd0, if_false]
  set scaled := (2 * v.num.natAbs * 10 ^ d + 10 ^ v.exp) / (2 * 10 ^ v.exp) with hs
  refine ⟨((if v.num < 0 then "-" else "") ++ natRepr (scaled / 10 ^ d)).data,
    padZerosL d (natRepr (scaled % 10 ^ d)).data, ?_, ?_, ?_⟩
  · have hdot : (".").data = ['.'] := rfl
    simp [String.data_append, hdot, List.append_assoc]
  · refine padZerosL_length d _ (natRepr_length_le _ d ?_ hd)
    exact Nat.mod_lt _ (Nat.pos_pow_of_pos d (by omega))
  · exact padZerosL_digits d _ (natRepr_digits _)

theorem hasDecimals_append_left (d : Nat) (u t : String) (h : hasDecimals d t) :
    hasDecimals d (u ++ t) := by
  obtain ⟨a, b, h1, h2, h3⟩ := h
  exact ⟨u.data ++ a, b, by simp [String.data_append, h1], h2, h3⟩

theorem hasDecimalsG_append_g (d : Nat) (t : String) (h : hasDecimals d t) :
    hasDecimalsG d (t ++ "g") := by
  obtain ⟨a, b, h1, h2, h3⟩ := h
  refine ⟨a, b, ?_, h2, h3⟩
  have hg : ("g").data = ['g'] := rfl
  simp [String.data_append, h1, hg, List.append_assoc]

theorem submitStep_inv (st : ChatInterface.SubmitState) (ev : ChatInterface.SubmitEvent)
    (h : st.inflight = if st.isLoading then 1 else 0) :
    (ChatInterface.submitStep st ev).inflight =
      if (ChatInterface.submitStep st ev).isLoading then 1 else 0 := by
  cases ev with
  | typeInput s =>
    rw [ChatInterface.submitStep]
    by_cases hl : st.isLoading
    · rw [if_pos hl]; exact h
    · rw [if_neg hl]; exact h
  | submit =>
    rw [ChatInterface.submitStep]
    by_cases hc : (decide (jsTrim st.inputValue = "") || st.isLoading) = true
    · rw [if_pos hc]; exact h
    · rw [if_neg hc]
      simp only [Bool.or_eq_true, decide_eq_true_eq, not_or] at hc
      have hl : st.isLoading = false := by
        cases hb : st.isLoading
        · rfl
        · exact absurd hb hc.2
      rw [hl] at h
      simp at h
      simp [h]
  | settle =>
    rw [ChatInterface.submitStep]
    by_cases h0 : st.inflight = 0
    · rw [if_pos h0]; exact h
    · rw [if_neg h0]
      have : st.inflight ≤ 1 := by split at h <;> omega
      simp only [Bool.false_eq_true, if_false]
      omega

theorem submitRun_inv (evs : List ChatInterface.SubmitEvent) :
    (ChatInterface.submitRun evs).inflight =
      if (ChatInterface.submitRun evs).isLoading then 1 else 0 := by
  suffices hgen : ∀ st : ChatInterface.SubmitState,
      st.inflight = (if st.isLoading then 1 else 0) →
      (List.foldl ChatInterface.submitStep st evs).inflight =
        if (List.foldl ChatInterface.submitStep st evs).isLoading then 1 else 0 by
    exact hgen ChatInterface.submitInit rfl
  induction evs with
  | nil => intro st h; exact h
  | cons e es ih =>
    intro st h
    exact ih (ChatInterface.submitStep st e) (submitStep_inv st e h)

/-- Claim C1 (code behavior at the failing input): starting from an active
conversation with `message_count = 0`, `total_tokens = 0` and no messages, a
successful `sendMessage` appends the returned message (with
`token_count = 5`) to `messages` but leaves `message_count` and
`total_tokens` at their pre-send values, so `message_count` no longer equals
the length of `messages` and `total_tokens` no longer equals the sum of
`token_count` over `messages`. -/
theorem c1_code_behavior :
    (sendMessage sampleState ("hello") (Except.ok sampleMessage)).state.currentConversation =
      some { sampleConversation with messages := [sampleMessage] } ∧
    ({ sampleConversation with messages := [sampleMessage] }).messages.length = 1 ∧
    sumTokens ({ sampleConversation with messages := [sampleMessage] }).messages = 5 ∧
    ({ sampleConversation with messages := [sampleMessage] }).message_count = 0 ∧
    ({ sampleConversation with messages := [sampleMessage] }).total_tokens = 0 := by
  decide

/-- Claim C2 as stated is false: the monetary display function of
`ChatInterface.tsx` renders the cost `1.5` as `$1.5000` (four fraction
digits), not as `$1.50`. -/
theorem c2_counterexample :
    ChatInterface.formatCost ("1.5") = "$1.5000" ∧ ("$1.5000" : String) ≠ "$1.50" := by
  decide

/-- Claim C2 (amended): both monetary display functions clamp parsed values
below `0.01` to `<$0.01` (in particular `0.004`); at or above `0.01`,
`ConversationList.formatCost` renders with exactly two fraction digits
(`1.5` as `$1.50`) while `ChatInterface.formatCost` renders with exactly
four fraction digits (`1.5` as `$1.5000`). -/
theorem c2_amended :
    (∀ s v, parseDecimal s = some v → decLt v ⟨1, 2⟩ = true →
      ConversationList.formatCost s = "<$0.01" ∧ ChatInterface.formatCost s = "<$0.01") ∧
    (∀ s v, parseDecimal s = some v → decLt v ⟨1, 2⟩ = false →
      hasDecimals 2 (ConversationList.formatCost s) ∧
      hasDecimals 4 (ChatInterface.formatCost s)) ∧
    ConversationList.formatCost ("0.004") = "<$0.01" ∧
    ChatInterface.formatCost ("0.004") = "<$0.01" ∧
    ConversationList.formatCost ("1.5") = "$1.50" ∧
    ChatInterface.formatCost ("1.5") = "$1.5000" := by
  refine ⟨?_, ?_, by decide, by decide, by decide, by decide⟩
  · intro s v hp hlt
    constructor
    · simp [ConversationList.formatCost, hp, hlt]
    · simp [ChatInterface.formatCost, hp, hlt]
  · intro s v hp hlt
    constructor
    · simp only [ConversationList.formatCost, hp, hlt, Bool.false_eq_true, if_false]
      exact hasDecimals_append_left 2 _ _ (toFixedD_hasDecimals 2 (by omega) v)
    · simp only [ChatInterface.formatCost, hp, hlt, Bool.false_eq_true, if_false]
      exact hasDecimals_append_left 4 _ _ (toFixedD_hasDecimals 4 (by omega) v)

/-- Claim C2 witness: the amended theorem instantiated at the concrete cost
strings `0.004` and `1.5`. -/
theorem c2_amended_witness :
    ConversationList.formatCost ("0.004") = "<$0.01" ∧
    ChatInterface.formatCost ("0.004") = "<$0.01" ∧
    hasDecimals 2 (ConversationList.formatCost ("1.5")) ∧
    hasDecimals 4 (ChatInterface.formatCost ("1.5")) := by
  refine ⟨(c2_amended.1 ("0.004") ⟨4, 3⟩ (by decide) (by decide)).1,
    (c2_amended.1 ("0.004") ⟨4, 3⟩ (by decide) (by decide)).2,
    (c2_amended.2.1 ("1.5") ⟨15, 1⟩ (by decide) (by decide)).1,
    (c2_amended.2.1 ("1.5") ⟨15, 1⟩ (by decide) (by decide)).2⟩

/-- Claim C3 as stated is false: the emissions display function of
`ChatInterface.tsx` renders the footprint `2.1` as `2.100g` (three fraction
digits), not as `2.10g`. -/
theorem c3_counterexample :
    ChatInterface.formatCarbon ("2.1") = "2.100g" ∧ ("2.100g" : String) ≠ "2.10g" := by
  decide

/-- Claim C3 (amended): both emissions display functions clamp parsed values
below `0.001` to `<0.001g` (in particular `0.0005`); at or above `0.001`,
`ConversationList.formatCarbon` renders with exactly two fraction digits and
a `g` suffix (`2.1` as `2.10g`) while `ChatInterface.formatCarbon` renders
with exactly three fraction digits and a `g` suffix (`2.1` as `2.100g`). -/
theorem c3_amended :
    (∀ s v, parseDecimal s = some v → decLt v ⟨1, 3⟩ = true →
      ConversationList.formatCarbon s = "<0.001g" ∧
      ChatInterface.formatCarbon s = "<0.001g") ∧
    (∀ s v, parseDecimal s = some v → decLt v ⟨1, 3⟩ = false →
      hasDecimalsG 2 (ConversationList.formatCarbon s) ∧
      hasDecimalsG 3 (ChatInterface.formatCarbon s)) ∧
    ConversationList.formatCarbon ("0.0005") = "<0.001g" ∧
    ChatInterface.formatCarbon ("0.0005") = "<0.001g" ∧
    ConversationList.formatCarbon ("2.1") = "2.10g" ∧
    ChatInterface.formatCarbon ("2.1") = "2.100g" := by
  refine ⟨?_, ?_, by decide, by decide, by decide, by decide⟩
  · intro s v hp hlt
    constructor
    · simp [ConversationList.formatCarbon, hp, hlt]
    · simp [ChatInterface.formatCarbon, hp, hlt]
  · intro s v hp hlt
    constructor
    · simp only [ConversationList.formatCarbon, hp, hlt, Bool.false_eq_true, if_false]
      exact hasDecimalsG_append_g 2 _ (toFixedD_hasDecimals 2 (by omega) v)
    · simp only [ChatInterface.formatCarbon, hp, hlt, Bool.false_eq_true, if_false]
      exact hasDecimalsG_append_g 3 _ (toFixedD_hasDecimals 3 (by omega) v)

/-- Claim C3 witness: the amended theorem instantiated at the concrete
footprint strings `0.0005` and `2.1`. -/
theorem c3_amended_witness :
    ConversationList.formatCarbon ("0.0005") = "<0.001g" ∧
    ChatInterface.formatCarbon ("0.0005") = "<0.001g" ∧
    hasDecimalsG 2 (ConversationList.formatCarbon ("2.1")) ∧
    hasDecimalsG 3 (ChatInterface.formatCarbon ("2.1")) := by
  refine ⟨(c3_amended.1 ("0.0005") ⟨5, 4⟩ (by decide) (by decide)).1,
    (c3_amended.1 ("0.0005") ⟨5, 4⟩ (by decide) (by decide)).2,
    (c3_amended.2.1 ("2.1") ⟨21, 1⟩ (by decide) (by decide)).1,
    (c3_amended.2.1 ("2.1") ⟨21, 1⟩ (by decide) (by decide)).2⟩

/-- Claim C4: submitting while the input is empty or all whitespace changes
neither the chat state nor the application state, and issues no request. -/
theorem c4_whitespace_submit_noop (cs : ChatInterface.ChatState) (st : AppState)
    (response : Except Unit Message)
    (h : ∀ c ∈ cs.inputValue.data, isJsWhitespace c = true) :
    ChatInterface.handleSubmit cs st response = (cs, ⟨st, [], []⟩) := by
  have htrim : jsTrim cs.inputValue = "" := by
    rw [jsTrim]
    have h1 : cs.inputValue.data.dropWhile isJsWhitespace = [] :=
      List.dropWhile_eq_nil_iff.mpr h
    rw [h1]
    rfl
  simp [ChatInterface.handleSubmit, htrim]

/-- Claim C4 witness: the no-op theorem at the concrete whitespace input. -/
theorem c4_witness :
    (∀ c ∈ ("  " : String).data, isJsWhitespace c = true) ∧
    ChatInterface.handleSubmit ⟨"  ", false⟩ sampleState (Except.error ()) =
      (⟨"  ", false⟩, ⟨sampleState, [], []⟩) :=
  ⟨by decide, c4_whitespace_submit_noop ⟨"  ", false⟩ sampleState (Except.error ()) (by decide)⟩

/-- Claim C5: in every state reachable by the submit control, at most one
send is in flight, and while the in-flight flag is set a further submit
leaves the state unchanged (it starts no second send). -/
theorem c5_no_concurrent_sends (evs : List ChatInterface.SubmitEvent) :
    (ChatInterface.submitRun evs).inflight ≤ 1 ∧
    ((ChatInterface.submitRun evs).isLoading = true →
      ChatInterface.submitStep (ChatInterface.submitRun evs) .submit =
        ChatInterface.submitRun evs) := by
  have h := submitRun_inv evs
  constructor
  · split at h <;> omega
  · intro hl
    simp [ChatInterface.submitStep, hl]

/-- Claim C5 witness: after typing `hi` and submitting once, a send is in
flight, the in-flight count is at most one, and a second submit is
rejected. -/
theorem c5_witness :
    ChatInterface.submitRun [.typeInput ("hi"), .submit] = ⟨"hi", true, 1⟩ ∧
    (ChatInterface.submitRun [.typeInput ("hi"), .submit]).inflight ≤ 1 ∧
    ChatInterface.submitStep (ChatInterface.submitRun [.typeInput ("hi"), .submit]) .submit =
      ChatInterface.submitRun [.typeInput ("hi"), .submit] :=
  ⟨by decide, (c5_no_concurrent_sends [.typeInput ("hi"), .submit]).1,
    (c5_no_concurrent_sends [.typeInput ("hi"), .submit]).2 (by decide)⟩

/-- Claim C6: for every network operation, a failed request leaves the
application state exactly at its pre-call value, writes exactly one entry to
the diagnostic log, and issues exactly one request (no retry). -/
theorem c6_failure_swallowed (st : AppState) (conversationId : Nat) (content : String) :
    fetchAvailableModels st (Except.error ()) =
      ⟨st, ["Failed to fetch models:"], [⟨"GET", "/api/v1/models/"⟩]⟩ ∧
    fetchConversations st (Except.error ()) =
      ⟨st, ["Failed to fetch conversations:"], [⟨"GET", "/api/v1/conversations/"⟩]⟩ ∧
    createNewConversation st (Except.error ()) =
      ⟨st, ["Failed to create conversation:"], [⟨"POST", "/api/v1/conversations/"⟩]⟩ ∧
    selectConversation st conversationId (Except.error ()) =
      ⟨st, ["Failed to fetch conversation:"],
        [⟨"GET", "/api/v1/conversations/" ++ natRepr conversationId⟩]⟩ ∧
    ∀ conv, st.currentConversation = some conv →
      sendMessage st content (Except.error ()) =
        ⟨st, ["Failed to send message:"],
          [⟨"POST", "/api/v1/conversations/" ++ natRepr conv.id ++ "/messages"⟩]⟩ := by
  refine ⟨rfl, rfl, rfl, rfl, ?_⟩
  intro conv h
  simp [sendMessage, h]

/-- Claim C6 witness: the failure theorem at the concrete state whose
current conversation is `sampleConversation`. -/
theorem c6_witness :
    sampleState.currentConversation = some sampleConversation ∧
    sendMessage sampleState ("hello") (Except.error ()) =
      ⟨sampleState, ["Failed to send message:"],
        [⟨"POST", "/api/v1/conversations/1/messages"⟩]⟩ := by
  refine ⟨by decide, ?_⟩
  have h := (c6_failure_swallowed sampleState 1 ("hello")).2.2.2.2 sampleConversation (by decide)
  exact h.trans (by decide)

/-- Claim C7: the provider-to-icon and provider-to-color mappings are total
functions whose range is the fixed set of known values, and every provider
other than `openai`, `anthropic` and `google` maps to the default icon and
the default neutral styling. -/
theorem c7_provider_mapping_total (provider : String)
    (h1 : provider ≠ "openai") (h2 : provider ≠ "anthropic") (h3 : provider ≠ "google") :
    ModelSelector.getModelIcon provider = "🤖" ∧
    ModelSelector.getModelColor provider = "text-gray-600 bg-gray-50" ∧
    ∀ p : String,
      (ModelSelector.getModelIcon p = "🤖" ∨ ModelSelector.getModelIcon p = "🧠" ∨
        ModelSelector.getModelIcon p = "💎") ∧
      (ModelSelector.getModelColor p = "text-green-600 bg-green-50" ∨
        ModelSelector.getModelColor p = "text-orange-600 bg-orange-50" ∨
        ModelSelector.getModelColor p = "text-blue-600 bg-blue-50" ∨
        ModelSelector.getModelColor p = "text-gray-600 bg-gray-50") := by
  refine ⟨?_, ?_, ?_⟩
  · simp [ModelSelector.getModelIcon, h1, h2, h3]
  · simp [ModelSelector.getModelColor, h1, h2, h3]
  · intro p
    constructor
    · rw [ModelSelector.getModelIcon]
      split
      · exact Or.inl rfl
      split
      · exact Or.inr (Or.inl rfl)
      split
      · exact Or.inr (Or.inr rfl)
      · exact Or.inl rfl
    · rw [ModelSelector.getModelColor]
      split
      · exact Or.inl rfl
      split
      · exact Or.inr (Or.inl rfl)
      split
      · exact Or.inr (Or.inr (Or.inl rfl))
      · exact Or.inr (Or.inr (Or.inr rfl))

/-- Claim C7 witness: the mapping theorem at the unrecognized provider
string `mistral`. -/
theorem c7_witness :
    ModelSelector.getModelIcon ("mistral") = "🤖" ∧
    ModelSelector.getModelColor ("mistral") = "text-gray-600 bg-gray-50" :=
  ⟨(c7_provider_mapping_total ("mistral") (by decide) (by decide) (by decide)).1,
    (c7_provider_mapping_total ("mistral") (by decide) (by decide) (by decide)).2.1⟩

/-- Claim C8 as stated is false: a conversation exactly 7 days (168 hours)
old is rendered in the month-and-day bucket, not the weekday bucket, because
the source tests `diffInHours < 168` strictly. -/
theorem c8_counterexample :
    ConversationList.formatDate (168 * 3600000) 0 = DateBucket.monthDay ∧
    DateBucket.monthDay ≠ DateBucket.weekday := by
  decide

/-- Claim C8 (amended): a timestamp less than 24 hours old is rendered as a
time of day; one at least 24 hours but strictly less than 7 days (168 hours)
old is rendered as a weekday name; one 7 days old or older is rendered as
month and day. -/
theorem c8_amended (nowMs dateMs : Int) :
    (nowMs - dateMs < 24 * 3600000 →
      ConversationList.formatDate nowMs dateMs = DateBucket.timeOfDay) ∧
    (24 * 3600000 ≤ nowMs - dateMs → nowMs - dateMs < 168 * 3600000 →
      ConversationList.formatDate nowMs dateMs = DateBucket.weekday) ∧
    (168 * 3600000 ≤ nowMs - dateMs →
      ConversationList.formatDate nowMs dateMs = DateBucket.monthDay) := by
  refine ⟨?_, ?_, ?_⟩
  · intro h
    rw [ConversationList.formatDate]
    rw [if_pos (show nowMs - dateMs < 24 * 3600000 by omega)]
  · intro h1 h2
    rw [ConversationList.formatDate]
    rw [if_neg (by omega), if_pos (by omega)]
  · intro h
    rw [ConversationList.formatDate]
    rw [if_neg (by omega), if_neg (by omega)]

/-- Claim C8 witness: the amended bucketing at a fresh timestamp, a 100-hour
old one, and a 200-hour old one. -/
theorem c8_witness :
    ConversationList.formatDate 0 0 = DateBucket.timeOfDay ∧
    ConversationList.formatDate (100 * 3600000) 0 = DateBucket.weekday ∧
    ConversationList.formatDate (200 * 3600000) 0 = DateBucket.monthDay :=
  ⟨(c8_amended 0 0).1 (by decide),
    (c8_amended (100 * 3600000) 0).2.1 (by decide) (by decide),
    (c8_amended (200 * 3600000) 0).2.2 (by decide)⟩

/-- Claim C9: a `sendMessage` call made while no conversation is current
returns at once, issuing no request, writing no log entry, and changing no
state. -/
theorem c9_send_no_conversation_noop (st : AppState) (content : String)
    (response : Except Unit Message) (h : st.currentConversation = none) :
    sendMessage st content response = ⟨st, [], []⟩ := by
  simp [sendMessage, h]

/-- Claim C9 witness: the no-op theorem at a concrete state with no current
conversation. -/
theorem c9_witness :
    sendMessage ⟨[], none, [], "gpt-4"⟩ ("hello") (Except.error ()) =
      ⟨⟨[], none, [], "gpt-4"⟩, [], []⟩ :=
  c9_send_no_conversation_noop ⟨[], none, [], "gpt-4"⟩ ("hello") (Except.error ()) rfl

/-- Claim C10: a submit of input with non-empty trim, made while no send is
in flight, always ends with the input cleared and the in-flight flag
dropped, for a succeeding and for a failing send alike. -/
theorem c10_input_cleared_after_settle (cs : ChatInterface.ChatState) (st : AppState)
    (response : Except Unit Message)
    (h1 : jsTrim cs.inputValue ≠ "") (h2 : cs.isLoading = false) :
    (ChatInterface.handleSubmit cs st response).1 = ⟨"", false⟩ := by
  simp [ChatInterface.handleSubmit, h1, h2]

/-- Claim C10 witness: the clearing theorem at the concrete input `hi`,
once with a failing send and once with a succeeding one. -/
theorem c10_witness :
    jsTrim ("hi") ≠ "" ∧
    (ChatInterface.handleSubmit ⟨"hi", false⟩ sampleState (Except.error ())).1 = ⟨"", false⟩ ∧
    (ChatInterface.handleSubmit ⟨"hi", false⟩ sampleState (Except.ok sampleMessage)).1 =
      ⟨"", false⟩ :=
  ⟨by decide,
    c10_input_cleared_after_settle ⟨"hi", false⟩ sampleState (Except.error ()) (by decide) rfl,
    c10_input_cleared_after_settle ⟨"hi", false⟩ sampleState (Except.ok sampleMessage)
      (by decide) rfl⟩

end ContextLink
